import Mathlib

/-!
Verification of the orchestration engine of a multi-agent assistant backend.

The definitions below are a shallow embedding of the engine's routing
functions and graph nodes (`src/backend/src/graph/router.py`,
`src/backend/src/graph/nodes.py`, `src/backend/src/graph/utils.py`,
`src/backend/src/graph/consts.py`, `src/backend/src/graph/workflow.py`)
together with the pieces of the agent layer the claims touch
(`src/backend/src/agents/supervisor_agent.py`,
`src/backend/src/tools/memory_tools.py`).

Modelling conventions:
* Messages are the LangChain message kinds the engine manipulates
  (`HumanMessage`, `AIMessage` with `tool_calls`, `ToolMessage` with
  `tool_call_id`).
* Nodes that await a language-model or human collaborator are embedded as
  functions of the state plus the collaborator's outcome, which is passed
  in as an extra argument; a Python exception escaping a node is embedded
  as an `Option.none` result.
* The state schema module `src/graph/state.py` is not present under `src/`
  (only its importers are).  The `MultiAgentState` structure and the merge
  semantics of node updates are modelled from the spec (sec. 3) and from how
  the nodes in `nodes.py` read and write the keys: the global `messages`
  log is append-only (`add_messages` reducer), every other key is replaced
  by the value a node returns.  Each node is therefore embedded as a total
  state-to-state function that applies its returned update.
-/

namespace AIAgent

/-! ### Node-name constants, from `src/backend/src/graph/consts.py` -/

def SUPERVISOR_NODE : String := "supervisor"

def EMAIL_AGENT_NODE : String := "email_agent"

def CALENDAR_AGENT_NODE : String := "calendar_agent"

def SHEET_AGENT_NODE : String := "sheet_agent"

def MEMORY_AGENT_NODE : String := "memory_agent"

def BROWSER_AGENT_NODE : String := "browser_agent"

def REVIEWER_NODE : String := "reviewer_agent"

def RETRIEVE_MEMORY_NODE : String := "retrieve_memory"

def CLEAR_STATE_NODE : String := "clear_state"

def EMAIL_TOOL_NODE : String := "email_tool_node"

def CALENDAR_TOOL_NODE : String := "calendar_tool_node"

def SHEET_TOOL_NODE : String := "sheet_tool_node"

def MEMORY_TOOL_NODE : String := "memory_tool_node"

def SENSITIVE_EMAIL_TOOLS : List String := ["send_email", "reply_to_email"]

def DEEP_RESEARCH_AGENT_NODE : String := "deep_research_agent"

def DEEP_RESEARCH_TOOL_NODE : String := "deep_research_tools"

/-- LangGraph's `END` sentinel node name. -/
def END_NODE : String := "__end__"

/-! ### Tool-name sets

`router.py` builds these dynamically from each agent's bound tools
(`EMAIL_TOOLS = {t.name.lower() for t in email_agent.tools}` and so on).
The names come from the `@tool` declarations in `src/backend/src/tools/`:
`email_tools.py` (`EMAIL_OUTLOOK_TOOLS`), `calender_tools.py`,
`sheet_tools.py` (`GOOGLE_SHEETS_CONTACT_TOOLS`) and `memory_tools.py`
(the memory agent binds `[add_memory, update_memory, delete_memory]`).
The deep-research agent binds one external Tavily search tool whose
LangChain name is `tavily_search_results_json`. -/

def EMAIL_TOOLS : List String :=
  ["get_unread_emails", "send_email", "reply_to_email", "mark_email_as_read"]

def CAL_TOOLS : List String :=
  ["get_calendar_events", "create_calendar_event", "update_calendar_event"]

def SHEET_TOOLS : List String :=
  ["upsert_contact", "get_contact", "list_contacts", "update_contact_field",
   "set_contact_tone", "delete_contact"]

def MEMORY_TOOLS : List String := ["add_memory", "update_memory", "delete_memory"]

def RESEARCH_TOOLS : List String := ["tavily_search_results_json"]

/-- Python's `str.lower()` on the ASCII names the engine compares
(character-wise lowering, kernel-computable). -/
def pyLower (s : String) : String := ⟨s.data.map Char.toLower⟩

/-- Python's `not s or not s.strip()`: the string is empty or whitespace
only. -/
def isBlank (s : String) : Bool := s.data.all (fun c => c.isWhitespace)

/-! ### Messages -/

/-- A LangChain tool call request: `{name, args, id}`.  `args` is modelled
as a string-keyed dictionary of rendered argument values; `id` is the
correlation id and may be absent (`None`). -/
structure ToolCall where
  name : String
  args : List (String × String)
  id : Option String
deriving DecidableEq

/-- A LangChain message as the engine sees it: a `HumanMessage`,
an `AIMessage` (with its `tool_calls` list), or a `ToolMessage`
(with its `tool_call_id`).  Each carries an optional `name` and a
`content` string. -/
inductive Msg where
  | human : Option String → String → Msg
  | ai : Option String → String → List ToolCall → Msg
  | tool : Option String → String → Option String → Msg
deriving DecidableEq

def Msg.name : Msg → Option String
  | .human n _ => n
  | .ai n _ _ => n
  | .tool n _ _ => n

def Msg.content : Msg → String
  | .human _ c => c
  | .ai _ c _ => c
  | .tool _ c _ => c

/-- `getattr(m, "tool_calls", None) or []`: only `AIMessage`s carry
tool-call requests. -/
def Msg.toolCalls : Msg → List ToolCall
  | .ai _ _ tcs => tcs
  | _ => []

def Msg.isHuman : Msg → Bool
  | .human _ _ => true
  | _ => false

def Msg.isAI : Msg → Bool
  | .ai _ _ _ => true
  | _ => false

def Msg.isTool : Msg → Bool
  | .tool _ _ _ => true
  | _ => false

/-- The `tool_call_id` of a `ToolMessage`; only read behind an
`isinstance(m, ToolMessage)` guard in the source. -/
def Msg.toolCallId : Msg → Option String
  | .tool _ _ i => i
  | _ => none

/-! ### Conversation state

Modelled from the spec: `src/graph/state.py` is missing from `src/`; the
fields are the keys the nodes in `nodes.py` and the routers read and
write, matching the spec's Conversation State (sec. 3) and the older
variant's schema (`src/schema/multi_agent_schema.py`).  Optional fields
model keys whose value may be `None` / absent (`state.get(...)`). -/
structure MultiAgentState where
  messages : List Msg
  core_messages : List Msg
  email_messages : List Msg
  calendar_messages : List Msg
  sheet_messages : List Msg
  memory_messages : List Msg
  browser_messages : List Msg
  research_messages : List Msg
  route : String
  retrieved_memory : String
  current_user_message : String
  message_to_next_agent : Option Msg
  supervisor_response : String
  email_agent_response : Option String
  calendar_agent_response : Option String
  sheet_agent_response : Option String
  memory_agent_response : Option String
  browser_agent_response : Option String
  research_agent_response : Option String
  pending_email_tool_call : Option ToolCall
  review_decision : Option String
  review_feedback : Option String
  bulk_approval_active : Option Bool
deriving DecidableEq

/-! ### `src/backend/src/graph/utils.py` -/

/-- `extract_last_tool_call`: the last tool call of the last message,
as a `{name, args, id}` record, or `None`. -/
def extract_last_tool_call (messages : List Msg) : Option ToolCall :=
  match messages.getLast? with
  | none => none
  | some last =>
    match last.toolCalls.getLast? with
    | none => none
    | some tc => some tc

/-- `get_last_human_message`: the last `HumanMessage` not named
`"Supervisor"`, else an empty `HumanMessage`. -/
def get_last_human_message (messages : List Msg) : Msg :=
  match messages.reverse.find? (fun m => m.isHuman && !(m.name = some "Supervisor")) with
  | some m => m
  | none => .human none ""

/-- One step of `strip_tool_calls`: the cleaned form of `history[i]`
given `history[i+1]`.  An `AIMessage` with tool calls is kept only when
the next message is a `ToolMessage` whose `tool_call_id` is among the
message's tool-call ids; otherwise its tool-call metadata is dropped and
empty content is replaced by the placeholder. -/
def stripOne (m : Msg) (next? : Option Msg) : Msg :=
  match m with
  | .ai nm content tcs =>
    if tcs.isEmpty then m
    else
      let paired : Bool :=
        match next? with
        | some (.tool _ _ tcid) => (tcs.map (fun tc => tc.id)).contains tcid
        | _ => false
      if paired then m
      else
        let c := if isBlank content then "[Delegating to sub-agent...]" else content
        .ai nm c []
  | _ => m

/-- `strip_tool_calls` from `utils.py`. -/
def strip_tool_calls : List Msg → List Msg
  | [] => []
  | m :: rest => stripOne m rest.head? :: strip_tool_calls rest

/-- Loop of `filter_supervisor_history`: traverse the reversed history,
keeping `HumanMessage`s not named `review_human` and `AIMessage`s whose
lowered name is `supervisor` or `sub_agent_task_summary`, stopping once
`limit` messages are collected. -/
def filterSupGo : List Msg → Nat → List Msg → List Msg
  | [], _, acc => acc
  | m :: rest, limit, acc =>
    let acc' :=
      match m with
      | .human nm _ => if nm = some "review_human" then acc else m :: acc
      | .ai nm _ _ =>
        let lowered := pyLower (nm.getD "")
        if lowered = "supervisor" || lowered = "sub_agent_task_summary" then m :: acc else acc
      | .tool _ _ _ => acc
    if limit ≤ acc'.length then acc' else filterSupGo rest limit acc'

/-- `filter_supervisor_history` from `utils.py`: the filtered window,
finally passed through `strip_tool_calls`. -/
def filter_supervisor_history (messages : List Msg) (limit : Nat) : List Msg :=
  strip_tool_calls (filterSupGo messages.reverse limit [])

/-! ### `src/backend/src/graph/router.py` -/

/-- `_get_last_tool_name`: lowered name of the last tool call of the
last message, or `None`. -/
def _get_last_tool_name (messages : List Msg) : Option String :=
  match messages.getLast? with
  | none => none
  | some last =>
    match last.toolCalls.getLast? with
    | none => none
    | some tc => some (pyLower tc.name)

/-- `sub_agent_should_continue`: worker routing.  The empty-string test
mirrors Python's `if not tool_name` (which catches both `None` and `""`). -/
def sub_agent_should_continue (s : MultiAgentState) : String :=
  match _get_last_tool_name s.messages with
  | none => CLEAR_STATE_NODE
  | some tn =>
    if tn = "" then CLEAR_STATE_NODE
    else if tn ∈ SENSITIVE_EMAIL_TOOLS then REVIEWER_NODE
    else if tn ∈ EMAIL_TOOLS then EMAIL_TOOL_NODE
    else if tn ∈ CAL_TOOLS then CALENDAR_TOOL_NODE
    else if tn ∈ SHEET_TOOLS then SHEET_TOOL_NODE
    else if tn ∈ RESEARCH_TOOLS then DEEP_RESEARCH_TOOL_NODE
    else CLEAR_STATE_NODE

/-- `supervisor_should_continue`: maps the stored `route` string to a
node name, defaulting to `"end"`. -/
def supervisor_should_continue (s : MultiAgentState) : String :=
  if s.route = "email_agent" then EMAIL_AGENT_NODE
  else if s.route = "calendar_agent" then CALENDAR_AGENT_NODE
  else if s.route = "sheet_agent" then SHEET_AGENT_NODE
  else if s.route = "browser_agent" then BROWSER_AGENT_NODE
  else if s.route = "deep_research_agent" then DEEP_RESEARCH_AGENT_NODE
  else "end"

/-- `reviewer_should_continue`: dispatch on the lowered review decision
(`state.get("review_decision") or ""`). -/
def reviewer_should_continue (s : MultiAgentState) : String :=
  let decision := pyLower ((s.review_decision).getD "")
  if decision = "approved" then EMAIL_TOOL_NODE
  else if decision = "change_requested" then EMAIL_AGENT_NODE
  else CLEAR_STATE_NODE

/-- Number of `ToolMessage`s in a log (`sum(1 for m in history if
isinstance(m, ToolMessage))`). -/
def countToolMsgs (l : List Msg) : Nat := (l.filter (fun m => m.isTool)).length

/-- `memory_should_continue`: continue into the memory tool node only if
the last message requests a tool, fewer than 2 tool outputs have occurred
in `memory_messages`, and the first requested tool is a memory tool. -/
def memory_should_continue (s : MultiAgentState) : String :=
  match s.messages.getLast? with
  | none => "end"
  | some last =>
    if !last.toolCalls.isEmpty then
      if 2 ≤ countToolMsgs s.memory_messages then "end"
      else
        match last.toolCalls.head? with
        | some tc => if pyLower tc.name ∈ MEMORY_TOOLS then MEMORY_TOOL_NODE else "end"
        | none => "end"
    else "end"

/-! ### `src/backend/src/graph/workflow.py` (`build_graph`) -/

/-- Every edge of the compiled graph: the unconditional `add_edge` calls
plus each target of the `add_conditional_edges` mappings. -/
def graphEdges : List (String × String) :=
  [ (SUPERVISOR_NODE, EMAIL_AGENT_NODE),
    (SUPERVISOR_NODE, CALENDAR_AGENT_NODE),
    (SUPERVISOR_NODE, SHEET_AGENT_NODE),
    (SUPERVISOR_NODE, BROWSER_AGENT_NODE),
    (SUPERVISOR_NODE, MEMORY_AGENT_NODE),
    (EMAIL_AGENT_NODE, REVIEWER_NODE),
    (EMAIL_AGENT_NODE, EMAIL_TOOL_NODE),
    (EMAIL_AGENT_NODE, CLEAR_STATE_NODE),
    (CALENDAR_AGENT_NODE, CALENDAR_TOOL_NODE),
    (CALENDAR_AGENT_NODE, CLEAR_STATE_NODE),
    (SHEET_AGENT_NODE, SHEET_TOOL_NODE),
    (SHEET_AGENT_NODE, CLEAR_STATE_NODE),
    (REVIEWER_NODE, EMAIL_TOOL_NODE),
    (REVIEWER_NODE, EMAIL_AGENT_NODE),
    (REVIEWER_NODE, CLEAR_STATE_NODE),
    (MEMORY_AGENT_NODE, MEMORY_TOOL_NODE),
    (MEMORY_AGENT_NODE, END_NODE),
    (RETRIEVE_MEMORY_NODE, SUPERVISOR_NODE),
    (CLEAR_STATE_NODE, SUPERVISOR_NODE),
    (BROWSER_AGENT_NODE, CLEAR_STATE_NODE),
    (EMAIL_TOOL_NODE, EMAIL_AGENT_NODE),
    (CALENDAR_TOOL_NODE, CALENDAR_AGENT_NODE),
    (SHEET_TOOL_NODE, SHEET_AGENT_NODE),
    (MEMORY_TOOL_NODE, MEMORY_AGENT_NODE) ]

/-- `graph.set_entry_point(RETRIEVE_MEMORY_NODE)`. -/
def entryPoint : String := RETRIEVE_MEMORY_NODE

/-- The supervisor's conditional-edge mapping: router value to node. -/
def supervisorConditionalEdges : List (String × String) :=
  [ (EMAIL_AGENT_NODE, EMAIL_AGENT_NODE),
    (CALENDAR_AGENT_NODE, CALENDAR_AGENT_NODE),
    (SHEET_AGENT_NODE, SHEET_AGENT_NODE),
    (BROWSER_AGENT_NODE, BROWSER_AGENT_NODE),
    ("end", MEMORY_AGENT_NODE) ]

/-! ### `src/backend/src/agents/supervisor_agent.py` -/

/-- The `route` field of the supervisor's structured output schema:
`Literal["email_agent", "calendar_agent", "sheet_agent", "memory_agent",
"none"]`. -/
inductive Route where
  | email_agent
  | calendar_agent
  | sheet_agent
  | memory_agent
  | none_
deriving DecidableEq

def Route.toStr : Route → String
  | .email_agent => "email_agent"
  | .calendar_agent => "calendar_agent"
  | .sheet_agent => "sheet_agent"
  | .memory_agent => "memory_agent"
  | .none_ => "none"

/-- The supervisor's structured decision
(`{thoughts, route, message_to_next_agent, response}`). -/
structure SupervisorOut where
  thoughts : String
  route : Route
  message_to_next_agent : String
  response : String
deriving DecidableEq

/-! ### `src/backend/src/graph/nodes.py` -/

/-- Step 3 of `_get_agent_inputs` ("standard message"): append the
handoff (`message_to_next_agent`) or, failing that, the last global
message; `none` models the `IndexError` when both are absent. -/
def agentInputsFallback (history all_messages : List Msg) (mta : Option Msg) :
    Option (List Msg) :=
  match mta with
  | some m => some (strip_tool_calls (history ++ [m]))
  | none =>
    match all_messages.getLast? with
    | some m => some (strip_tool_calls (history ++ [m]))
    | none => none

/-- The tool-result messages of the global stream answering the hanging
tool calls of `last` and not yet present in the worker history
(`new_tool_msgs` in step 2 of `_get_agent_inputs`). -/
def agentInputsNewToolMsgs (history all_messages : List Msg) (last : Msg) : List Msg :=
  let tcIds := last.toolCalls.map (fun tc => tc.id)
  let found := all_messages.filter (fun m => m.isTool && tcIds.contains m.toolCallId)
  let existing := (history.filter (fun m => m.isTool)).map (fun m => m.toolCallId)
  found.filter (fun m => !existing.contains m.toolCallId)

/-- `_get_agent_inputs(state, history_key)` as a function of the fields
it reads: the worker's history, the global `messages`, and
`message_to_next_agent` — step 1 (history ends in a tool result: clean
and return), step 2 (history ends in a tool-call request answered in the
global stream: append the new results), step 3 (standard message). -/
def _get_agent_inputs (history all_messages : List Msg) (mta : Option Msg) :
    Option (List Msg) :=
  match history.getLast? with
  | none => agentInputsFallback history all_messages mta
  | some last =>
    if last.isTool then some (strip_tool_calls history)
    else if last.isAI && !last.toolCalls.isEmpty then
      if !(agentInputsNewToolMsgs history all_messages last).isEmpty then
        some (strip_tool_calls (history ++ agentInputsNewToolMsgs history all_messages last))
      else agentInputsFallback history all_messages mta
    else agentInputsFallback history all_messages mta

/-- Which worker a `call_agent_generic` invocation is parametrized by
(`history_key` / `response_key` pairs used in `nodes.py`). -/
inductive WorkerKey where
  | email
  | calendar
  | sheet
  | research
deriving DecidableEq

def getWorkerHistory (s : MultiAgentState) : WorkerKey → List Msg
  | .email => s.email_messages
  | .calendar => s.calendar_messages
  | .sheet => s.sheet_messages
  | .research => s.research_messages

def setWorkerFields (s : MultiAgentState) (k : WorkerKey) (hist : List Msg)
    (resp : String) : MultiAgentState :=
  match k with
  | .email => { s with email_messages := hist, email_agent_response := some resp }
  | .calendar => { s with calendar_messages := hist, calendar_agent_response := some resp }
  | .sheet => { s with sheet_messages := hist, sheet_agent_response := some resp }
  | .research => { s with research_messages := hist, research_agent_response := some resp }

/-- `call_agent_generic(state, agent, history_key, response_key)`.
The worker's language-model collaborator is invoked on the reconciled
inputs; its reply is passed in as `response`.  The returned update streams
the response to the global log, appends it (raw) to `core_messages`,
extends the worker history with the new inputs plus the response, caches
the response content, and clears the handoff. -/
def call_agent_generic (s : MultiAgentState) (k : WorkerKey) (response : Msg) :
    Option MultiAgentState :=
  match _get_agent_inputs (getWorkerHistory s k) s.messages s.message_to_next_agent with
  | none => none
  | some input_msgs =>
    let hist := getWorkerHistory s k
    let new_inputs := input_msgs.drop hist.length
    let s' := setWorkerFields s k (hist ++ new_inputs ++ [response]) response.content
    some { s' with
      messages := s.messages ++ [response],
      core_messages := s.core_messages ++ [response],
      message_to_next_agent := none }

/-! ### `src/backend/src/tools/memory_tools.py` (`search_memory`) -/

/-- One entry of the memory store's search result, with the fields the
renderer reads.  Numeric score formatting (`f"{score:.4f}"`) is abstracted
into the already-rendered `scoreText`; `metadata` carries
`(category, importance)` when the metadata dict is non-empty. -/
structure MemEntry where
  memory : String
  id : String
  scoreText : String
  metadata : Option (String × String)
  created_at : String
deriving DecidableEq

/-- Outcome of `memory_manager.search_memory`: a results list (either the
`{'results': [...]}` wrapper or a plain list), an unexpected result type,
or a raised exception (`str(e)` plus the rendered traceback). -/
inductive MemSearchOutcome where
  | results : List MemEntry → MemSearchOutcome
  | unexpectedFormat : String → MemSearchOutcome
  | raised : String → String → MemSearchOutcome
deriving DecidableEq

def renderMemVerbose (i : Nat) (m : MemEntry) : List String :=
  [toString i ++ ". " ++ m.memory, "   ID: " ++ m.id, "   Score: " ++ m.scoreText] ++
    (match m.metadata with
     | some (c, imp) => ["   Category: " ++ c ++ ", Importance: " ++ imp]
     | none => []) ++
    ["   Created: " ++ m.created_at, ""]

def renderMemBrief (i : Nat) (m : MemEntry) : List String :=
  [toString i ++ ". " ++ m.memory] ++
    (match m.metadata with
     | some (c, imp) => ["   Category: " ++ c ++ ", Importance: " ++ imp]
     | none => [])

/-- `search_memory(query, limit, more)`: total — every failure is turned
into a returned string, never propagated. -/
def search_memory (outcome : MemSearchOutcome) (more : Bool) : String :=
  match outcome with
  | .raised e tb => "Error searching memories: " ++ e ++ "\n" ++ tb
  | .unexpectedFormat ty => "Unexpected result format: " ++ ty
  | .results [] => "No relevant memories found."
  | .results mems =>
    let render := if more then renderMemVerbose else renderMemBrief
    let body := (List.enumFrom 1 mems).map (fun p => render p.1 p.2)
    String.intercalate "\n" (["Found relevant memories:\n"] ++ body.flatten)

/-- `retrieve_memory`: reads `state["messages"][-1]` (raising when the log
is empty, modelled as `none`), then invokes the `search_memory` tool with
`{"query": content, "limit": 1, "more": True}` through the memory-store
collaborator `lookup`. -/
def retrieve_memory (s : MultiAgentState)
    (lookup : String → Nat → Bool → MemSearchOutcome) : Option MultiAgentState :=
  match s.messages.getLast? with
  | none => none
  | some last =>
    let content := last.content
    some { s with
      retrieved_memory := search_memory (lookup content 1 true) true,
      current_user_message := content }

/-- `call_supervisor`: the language model is invoked (on
`filter_supervisor_history(state["messages"])` plus the retrieved memory)
with the structured `Supervisor` output schema; `out = none` models the
parse failure of that structured output, which the node does not catch, so
the failure propagates (`none`). -/
def call_supervisor (s : MultiAgentState) (out : Option SupervisorOut) :
    Option MultiAgentState :=
  match out with
  | none => none
  | some r =>
    let supMsg : Msg := .ai (some "Supervisor") r.response []
    let mta : Option Msg :=
      if r.route ≠ Route.none_ then
        some (.human (some "Supervisor") r.message_to_next_agent)
      else none
    some { s with
      route := pyLower (Route.toStr r.route),
      messages := s.messages ++ [supMsg] ++
        (match mta with | some m => [m] | none => []),
      core_messages := s.core_messages ++ [supMsg],
      supervisor_response := r.response,
      message_to_next_agent := mta }

/-- `args.get(k, '')` on the modelled args dictionary. -/
def pyGetArg (args : List (String × String)) (k : String) : String :=
  match args.find? (fun p => p.1 = k) with
  | some p => p.2
  | none => ""

/-- Python's `a or b` on strings (empty string is falsy). -/
def pyOr (a b : String) : String := if a = "" then b else a

/-- The horizontal rule of the review draft, as it appears in the source. -/
def draftRule : String :=
  "â”€â”€â”€â”€â”€â”€â”€â”€â”€â”€â”€â”€â”€â”€â”€â”€â”€â”€â”€â”€â”€â”€â”€â”€â”€â”€â”€â”€â”€â”€"

/-- The human-readable draft built by `call_reviewer_agent` from the
pending call's arguments. -/
def buildDraft (args : List (String × String)) : String :=
  "# ğŸ“§ DRAFT EMAIL FOR REVIEW\n" ++
  "**To:** `" ++ pyOr (pyGetArg args "to") (pyGetArg args "recipient") ++ "`\n" ++
  "**Subject:** `" ++ pyGetArg args "subject" ++ "`\n" ++
  draftRule ++ "\n\n" ++
  pyOr (pyGetArg args "body") (pyGetArg args "message") ++ "\n" ++
  "\n" ++ draftRule ++ "\n" ++
  "**Tip:** Type \x27approved\x27 to send this and auto-approve subsequent emails in this task."

/-- The reviewer language model's structured classification
(`ReviewerEmailAgentResponse`: `{decision, feedback}`). -/
structure ReviewOut where
  decision : String
  feedback : String
deriving DecidableEq

/-- `pending = state.get("pending_email_tool_call") or
extract_last_tool_call(state.get("messages", []))`. -/
def reviewerPending (s : MultiAgentState) : Option ToolCall :=
  match s.pending_email_tool_call with
  | some p => some p
  | none => extract_last_tool_call s.messages

/-- `call_reviewer_agent`, with the human reply to the `interrupt` and the
reviewer model's classification passed in as collaborator outcomes.  The
returned `Bool` records whether `interrupt` was reached (execution
suspended). -/
def call_reviewer_agent (s : MultiAgentState) (humanText : String)
    (review : ReviewOut) : MultiAgentState × Bool :=
  if s.bulk_approval_active = some true then
    ({ s with review_decision := some "approved" }, false)
  else
    match reviewerPending s with
    | none => ({ s with review_decision := none }, false)
    | some pending =>
      if pyLower pending.name ∉ SENSITIVE_EMAIL_TOOLS then
        ({ s with review_decision := none }, false)
      else
        let tool_name := pyLower pending.name
        let tool_id := pending.id
        let base := { s with
          review_decision := some review.decision,
          review_feedback := some review.feedback,
          messages := s.messages ++ [.human (some "review_human") humanText],
          core_messages := s.core_messages ++
            [.ai (some "reviewer_agent")
              ("[REVIEW] " ++ review.decision ++ "\n" ++ review.feedback) []] }
        let base :=
          if review.decision = "approved" then
            { base with bulk_approval_active := some true }
          else base
        if review.decision = "change_requested" then
          let rejection : Msg := .tool (some tool_name)
            ("User rejected draft. Feedback: " ++ review.feedback ++ ". Please Rewrite.")
            tool_id
          ({ base with
              email_messages := s.email_messages ++ [rejection],
              messages := s.messages ++ [rejection],
              message_to_next_agent := none,
              bulk_approval_active := some false }, true)
        else (base, true)

/-- The trailing block of `ToolMessage`s of a log (collected by the
reversed scan in `call_memory_agent`). -/
def trailingToolMsgs (l : List Msg) : List Msg :=
  (l.reverse.takeWhile (fun m => m.isTool)).reverse

/-- `call_memory_agent`: reconciles tool outputs from the global stream
into the memory history, invokes the memory language model (its reply is
`response`), and appends the new inputs plus the reply. -/
def call_memory_agent (s : MultiAgentState) (response : Msg) : MultiAgentState :=
  let all := s.messages
  let recent : List Msg :=
    match all.getLast? with
    | some m => if m.isTool then trailingToolMsgs all else []
    | none => []
  let input_msgs :=
    if !recent.isEmpty then s.memory_messages ++ recent
    else s.memory_messages ++ [get_last_human_message all]
  { s with
    messages := s.messages ++ [response],
    memory_messages := input_msgs ++ [response],
    memory_agent_response := some response.content,
    message_to_next_agent := none }

/-- `call_browser_agent`: runs the browser collaborator on the handoff (or
the last global message) and records its textual result.  `none` models
the `IndexError` when both are absent. -/
def browserNextMsg (s : MultiAgentState) : Option Msg :=
  match s.message_to_next_agent with
  | some m => some m
  | none => s.messages.getLast?

def call_browser_agent (s : MultiAgentState) (result_text : String) :
    Option MultiAgentState :=
  match browserNextMsg s with
  | none => none
  | some next_msg =>
    some { s with
      messages := s.messages ++ [.ai (some "browser_agent") result_text []],
      core_messages := s.core_messages ++ [.ai (some "browser_agent") result_text []],
      browser_messages := s.browser_messages ++
        [next_msg, .ai (some "browser_agent") result_text []],
      browser_agent_response := some result_text,
      message_to_next_agent := none }

/-- Python's `needle in hay` on strings. -/
def containsSub (needle hay : String) : Bool :=
  decide (needle.toList <:+: hay.toList)

/-- Python truthiness of an optional string (`None` and `""` are falsy). -/
def truthyStr : Option String → Option String
  | some s => if s = "" then none else some s
  | none => none

/-- `get_tool_results_text` (local helper of `clear_sub_agents_state`):
the contents of the log's `ToolMessage`s, latest first, dropping human
review feedback, joined with `" | "`; `None` when empty. -/
def get_tool_results_text (history : List Msg) : Option String :=
  let results := history.reverse.filterMap (fun m =>
    match m with
    | .tool _ c _ => if containsSub "User rejected draft" c then none else some c
    | _ => none)
  if results.isEmpty then none else some (String.intercalate " | " results)

/-- The `summary_parts` list assembled by `clear_sub_agents_state`. -/
def summaryParts (s : MultiAgentState) : List String :=
  (match truthyStr s.email_agent_response with
   | some r =>
     ["Email Agent Status: " ++ r] ++
       (match get_tool_results_text s.email_messages with
        | some t => ["âœ… ACTION COMPLETED (Tool Output): " ++ t]
        | none => [])
   | none => []) ++
  (match truthyStr s.calendar_agent_response with
   | some r =>
     ["Calendar Agent Status: " ++ r] ++
       (match get_tool_results_text s.calendar_messages with
        | some t => ["âœ… ACTION COMPLETED (Tool Output): " ++ t]
        | none => [])
   | none => []) ++
  (match truthyStr s.sheet_agent_response with
   | some r => ["Sheet Agent: " ++ r]
   | none => []) ++
  (match truthyStr s.browser_agent_response with
   | some r => ["Browser Agent: " ++ r]
   | none => []) ++
  (match truthyStr s.research_agent_response with
   | some r => ["Deep Research Agent Findings: " ++ r]
   | none => [])

/-- The filter building the rebuilt core log: `isinstance(m, HumanMessage)
or m.name in ("Supervisor", "sub_agent_task_summary")`. -/
def keepCore (m : Msg) : Bool :=
  m.isHuman || m.name = some "Supervisor" || m.name = some "sub_agent_task_summary"

/-- The task-summary text (`final_summary`); `ts` is the timestamp taken
from the wall clock in the source. -/
def summaryText (ts instText content : String) : String :=
  "### SUBSYSTEM REPORT (" ++ ts ++ ") ###\n" ++
  "**Instruction Addressed:** " ++ instText ++ "\n" ++
  "**Details:**\n" ++ content ++ "\n" ++
  "------------------------\n" ++
  "âš ï¸ SYSTEM INSTRUCTION TO SUPERVISOR:\n" ++
  "1. The instruction listed above is now 100% COMPLETE.\n" ++
  "2. ANY human feedback or change requests seen earlier in the history HAVE BEEN FULLY INCORPORATED into this result.\n" ++
  "3. If an action is marked âœ…, IT IS DONE. DO NOT route back to the agent for this specific instruction again.\n" ++
  "4. Proceed to the next objective or provide the final response."

/-- The summary message composed for a state (when `summary_parts` is
non-empty). -/
def summaryMsg (s : MultiAgentState) (ts : String) : Msg :=
  let instText :=
    match s.message_to_next_agent with
    | some m => m.content
    | none => "Current user request"
  .ai (some "sub_agent_task_summary")
    (summaryText ts instText (String.intercalate "\n" (summaryParts s))) []

/-- `clear_sub_agents_state`: rebuilds the core log from the raw trace,
optionally appends the task summary (to the core log and the global
stream), and resets the worker scope.  `ts` is the wall-clock timestamp. -/
def clear_sub_agents_state (s : MultiAgentState) (ts : String) : MultiAgentState :=
  let core := s.messages.filter keepCore
  let parts := summaryParts s
  let newMsgs : List Msg := if parts.isEmpty then [] else [summaryMsg s ts]
  { s with
    messages := s.messages ++ newMsgs,
    core_messages := core ++ newMsgs,
    email_messages := [],
    calendar_messages := [],
    sheet_messages := [],
    email_agent_response := none,
    calendar_agent_response := none,
    sheet_agent_response := none,
    browser_agent_response := none,
    research_agent_response := none,
    message_to_next_agent := none,
    review_decision := none,
    review_feedback := none,
    pending_email_tool_call := none,
    bulk_approval_active := some false }

/-! ### Properties and example fixtures -/

/-- Core-log purity: no entry carries tool-call requests and none is a
tool-result message. -/
def corePure (l : List Msg) : Bool :=
  l.all (fun m => m.toolCalls.isEmpty && !m.isTool)

/-- A message is resolved with respect to its immediate successor: either
it carries no tool-call requests, or the next message is a tool result
whose correlation id matches one of its requests. -/
def pairedWithNext (m : Msg) (next? : Option Msg) : Bool :=
  m.toolCalls.isEmpty ||
    (match next? with
     | some n => n.isTool && (m.toolCalls.map (fun tc => tc.id)).contains n.toolCallId
     | none => false)

/-- Every message of the list is resolved with respect to its successor. -/
def wellPaired : List Msg → Bool
  | [] => true
  | m :: rest => pairedWithNext m rest.head? && wellPaired rest

/-- An empty conversation state, used as the base of concrete examples. -/
def baseState : MultiAgentState :=
  { messages := [], core_messages := [], email_messages := [],
    calendar_messages := [], sheet_messages := [], memory_messages := [],
    browser_messages := [], research_messages := [], route := "none",
    retrieved_memory := "", current_user_message := "",
    message_to_next_agent := none, supervisor_response := "",
    email_agent_response := none, calendar_agent_response := none,
    sheet_agent_response := none, memory_agent_response := none,
    browser_agent_response := none, research_agent_response := none,
    pending_email_tool_call := none, review_decision := none,
    review_feedback := none, bulk_approval_active := none }

/-! ## Claims -/

/-- C1 (counterexample): the claim is false as stated.  `add_memory` is a
non-sensitive tool with its own tool-execution node (`memory_tool_node`
is registered in `build_graph`), yet `sub_agent_should_continue` routes a
state whose last message requests it to the State Summarizer
(`clear_state`), because the router only checks the email, calendar,
sheet and research tool sets. -/
theorem C1_counterexample :
    sub_agent_should_continue
      { baseState with messages := [.ai none "" [⟨"add_memory", [], some "1"⟩]] } =
      CLEAR_STATE_NODE
    ∧ "add_memory" ∈ MEMORY_TOOLS
    ∧ "add_memory" ∉ SENSITIVE_EMAIL_TOOLS
    ∧ CLEAR_STATE_NODE ≠ MEMORY_TOOL_NODE := by
  refine ⟨by decide, by decide, by decide, by decide⟩

/-- C1 (amended): worker routing with the last tool-call's lowered name:
a sensitive tool goes to the Reviewer; a non-sensitive tool belonging to
the email, calendar, sheet or research tool sets goes to that set's tool
execution node; no tool-call — or a tool name outside all checked sets
(including every memory tool) — goes to the State Summarizer. -/
theorem C1_amended :
    (∀ s : MultiAgentState, _get_last_tool_name s.messages = none →
      sub_agent_should_continue s = CLEAR_STATE_NODE)
    ∧ (∀ (s : MultiAgentState) (t : String), _get_last_tool_name s.messages = some t →
      t ∈ SENSITIVE_EMAIL_TOOLS → sub_agent_should_continue s = REVIEWER_NODE)
    ∧ (∀ (s : MultiAgentState) (t : String), _get_last_tool_name s.messages = some t →
      t ∈ EMAIL_TOOLS → t ∉ SENSITIVE_EMAIL_TOOLS →
      sub_agent_should_continue s = EMAIL_TOOL_NODE)
    ∧ (∀ (s : MultiAgentState) (t : String), _get_last_tool_name s.messages = some t →
      t ∈ CAL_TOOLS → sub_agent_should_continue s = CALENDAR_TOOL_NODE)
    ∧ (∀ (s : MultiAgentState) (t : String), _get_last_tool_name s.messages = some t →
      t ∈ SHEET_TOOLS → sub_agent_should_continue s = SHEET_TOOL_NODE)
    ∧ (∀ (s : MultiAgentState) (t : String), _get_last_tool_name s.messages = some t →
      t ∈ RESEARCH_TOOLS → sub_agent_should_continue s = DEEP_RESEARCH_TOOL_NODE)
    ∧ (∀ (s : MultiAgentState) (t : String), _get_last_tool_name s.messages = some t →
      t ∉ SENSITIVE_EMAIL_TOOLS → t ∉ EMAIL_TOOLS → t ∉ CAL_TOOLS → t ∉ SHEET_TOOLS →
      t ∉ RESEARCH_TOOLS → sub_agent_should_continue s = CLEAR_STATE_NODE) := by
  refine ⟨?_, ?_, ?_, ?_, ?_, ?_, ?_⟩
  · intro s h
    simp only [sub_agent_should_continue, h]
  · intro s t h hmem
    simp only [sub_agent_should_continue, h]
    fin_cases hmem <;> rfl
  · intro s t h hmem hns
    simp only [sub_agent_should_continue, h]
    fin_cases hmem <;> first
      | rfl
      | exact absurd (by decide) hns
  · intro s t h hmem
    simp only [sub_agent_should_continue, h]
    fin_cases hmem <;> rfl
  · intro s t h hmem
    simp only [sub_agent_should_continue, h]
    fin_cases hmem <;> rfl
  · intro s t h hmem
    simp only [sub_agent_should_continue, h]
    fin_cases hmem
    rfl
  · intro s t h h1 h2 h3 h4 h5
    simp only [sub_agent_should_continue, h]
    by_cases h0 : t = ""
    · simp [h0]
    · simp [h0, h1, h2, h3, h4, h5]

/-- C1 (witness): the amended routing at a concrete sensitive call. -/
theorem C1_witness :
    sub_agent_should_continue
      { baseState with messages := [.ai none "" [⟨"send_email", [], some "1"⟩]] } =
      REVIEWER_NODE :=
  C1_amended.2.1
    { baseState with messages := [.ai none "" [⟨"send_email", [], some "1"⟩]] }
    "send_email" (by decide) (by decide)

/-- C2: bulk approval.  (1) When `bulk_approval_active` is set, the
Reviewer node only sets `review_decision = "approved"` and returns without
suspending (`interrupt` is never reached).  (2) On the review path the
flag ends up `true` exactly when the classification is `approved`.
(3) A `change_requested` classification resets it to `false`.
(4) The State Summarizer resets it to `false`. -/
theorem C2_bulk_approval :
    (∀ (s : MultiAgentState) (ht : String) (r : ReviewOut),
      s.bulk_approval_active = some true →
      call_reviewer_agent s ht r = ({ s with review_decision := some "approved" }, false))
    ∧ (∀ (s : MultiAgentState) (ht : String) (r : ReviewOut) (p : ToolCall),
      s.bulk_approval_active ≠ some true → reviewerPending s = some p →
      pyLower p.name ∈ SENSITIVE_EMAIL_TOOLS →
      (((call_reviewer_agent s ht r).1.bulk_approval_active = some true) ↔
        r.decision = "approved"))
    ∧ (∀ (s : MultiAgentState) (ht : String) (r : ReviewOut) (p : ToolCall),
      s.bulk_approval_active ≠ some true → reviewerPending s = some p →
      pyLower p.name ∈ SENSITIVE_EMAIL_TOOLS → r.decision = "change_requested" →
      (call_reviewer_agent s ht r).1.bulk_approval_active = some false)
    ∧ (∀ (s : MultiAgentState) (ts : String),
      (clear_sub_agents_state s ts).bulk_approval_active = some false) := by
  refine ⟨?_, ?_, ?_, ?_⟩
  · intro s ht r hb
    simp only [call_reviewer_agent, if_pos hb]
  · intro s ht r p hb hp hsens
    simp only [call_reviewer_agent, if_neg hb, hp]
    rw [if_neg (not_not_intro hsens)]
    by_cases hcr : r.decision = "change_requested"
    · simp only [if_pos hcr]
      simp [hcr]
    · simp only [if_neg hcr]
      by_cases hap : r.decision = "approved"
      · simp [hap]
      · simp only [if_neg hap]
        simp only [ne_eq] at hb
        simp [hb, hap]
  · intro s ht r p hb hp hsens hcr
    simp only [call_reviewer_agent, if_neg hb, hp]
    rw [if_neg (not_not_intro hsens)]
    simp [hcr]
  · intro s ts
    rfl

/-- C2 (witness): auto-approval at a concrete state with the flag set. -/
theorem C2_witness :
    call_reviewer_agent { baseState with bulk_approval_active := some true } "ok"
      ⟨"approved", ""⟩ =
      ({ { baseState with bulk_approval_active := some true } with
          review_decision := some "approved" }, false) :=
  C2_bulk_approval.1 { baseState with bulk_approval_active := some true } "ok"
    ⟨"approved", ""⟩ rfl

/-- `stripOne` never changes a message that is not an `AIMessage` with
tool calls; in particular tool messages pass through unchanged. -/
theorem stripOne_tool (nm : Option String) (c : String) (i : Option String)
    (next? : Option Msg) : stripOne (.tool nm c i) next? = .tool nm c i := rfl

/-- Every output of `strip_tool_calls` satisfies the weak pairing
property: each message either carries no tool-call requests or is
immediately followed by a tool result matching one of its correlation
ids. -/
theorem wellPaired_strip (l : List Msg) : wellPaired (strip_tool_calls l) = true := by
  induction l with
  | nil => rfl
  | cons m rest ih =>
    rw [strip_tool_calls, wellPaired, ih, Bool.and_true]
    cases m with
    | human nm c =>
      simp [stripOne, pairedWithNext, Msg.toolCalls]
    | tool nm c i =>
      simp [stripOne, pairedWithNext, Msg.toolCalls]
    | ai nm c tcs =>
      by_cases htcs : tcs.isEmpty
      · simp [stripOne, htcs, pairedWithNext, Msg.toolCalls]
      · cases rest with
        | nil =>
          simp [stripOne, htcs, pairedWithNext, Msg.toolCalls]
        | cons n t =>
          cases n with
          | human nnm nc =>
            simp [stripOne, htcs, pairedWithNext, Msg.toolCalls]
          | ai nnm nc ntcs =>
            simp [stripOne, htcs, pairedWithNext, Msg.toolCalls]
          | tool nnm nc ni =>
            by_cases hp : ∃ a ∈ tcs, a.id = ni
            · rw [strip_tool_calls]
              simp [stripOne, htcs, hp, pairedWithNext, Msg.toolCalls,
                Msg.isTool, Msg.toolCallId]
            · simp [stripOne, htcs, hp, pairedWithNext, Msg.toolCalls]

/-- C3 (counterexample): the claim is false as stated.  With a parallel
tool-call message requesting correlation ids `"a"` and `"b"`, whose
sub-log already holds a result for `"a"` only, `_get_agent_inputs`
replays the message to the model with both requests intact (it is deemed
paired because the single following result matches one id), even though
the global log holds a result for `"b"` that is never appended: the
reconciled input carries an unresolved request for `"b"` with no result
message for it anywhere in the list, and the message was not stripped. -/
theorem C3_counterexample :
    _get_agent_inputs
      [.ai none "x" [⟨"send_email", [], some "a"⟩, ⟨"get_unread_emails", [], some "b"⟩],
       .tool none "ok" (some "a")]
      [.tool none "okB" (some "b")] none =
      some
        [.ai none "x" [⟨"send_email", [], some "a"⟩, ⟨"get_unread_emails", [], some "b"⟩],
         .tool none "ok" (some "a")]
    ∧ ((Msg.ai none "x"
        [⟨"send_email", [], some "a"⟩, ⟨"get_unread_emails", [], some "b"⟩]).toolCalls.map
          (fun tc => tc.id)).contains (some "b") = true
    ∧ ([Msg.ai none "x" [⟨"send_email", [], some "a"⟩, ⟨"get_unread_emails", [], some "b"⟩],
        Msg.tool none "ok" (some "a")].filter
          (fun m => m.isTool && m.toolCallId = some "b")) = [] := by
  refine ⟨by decide, by decide, by decide⟩

/-- C3 (amended): every reconciled input list sent to a worker's language
model satisfies the weak pairing invariant — each message carrying
tool-call requests is either immediately followed by a tool-result
message matching at least one of its correlation ids, or has its
tool-call metadata stripped down to a content-only message; with
parallel requests, correlation ids beyond the matched one may remain
unresolved. -/
theorem C3_amended (history all_messages : List Msg) (mta : Option Msg)
    (out : List Msg) (h : _get_agent_inputs history all_messages mta = some out) :
    wellPaired out = true := by
  have hfb : ∀ out', agentInputsFallback history all_messages mta = some out' →
      wellPaired out' = true := by
    intro out' h'
    unfold agentInputsFallback at h'
    cases mta with
    | some m =>
      simp only [Option.some.injEq] at h'
      rw [← h']; exact wellPaired_strip _
    | none =>
      cases ha : all_messages.getLast? with
      | none => rw [ha] at h'; exact absurd h' (by simp)
      | some m =>
        rw [ha] at h'
        simp only [Option.some.injEq] at h'
        rw [← h']; exact wellPaired_strip _
  unfold _get_agent_inputs at h
  split at h
  · exact hfb out h
  · split at h
    · simp only [Option.some.injEq] at h
      rw [← h]; exact wellPaired_strip _
    · split at h
      · split at h
        · simp only [Option.some.injEq] at h
          rw [← h]; exact wellPaired_strip _
        · exact hfb out h
      · exact hfb out h

/-- C3 (witness): the amended pairing invariant at a concrete
reconciliation. -/
theorem C3_witness : wellPaired [Msg.human none "hi"] = true :=
  C3_amended [] [Msg.human none "hi"] none [Msg.human none "hi"] rfl

/-- C4: bounded termination of the Memory Agent loop.  Once 2 tool
executions have been recorded in the memory sub-log, the router returns
`"end"` regardless of further tool-call requests; conversely it only
re-enters the memory tool node while fewer than 2 tool outputs have
occurred. -/
theorem C4_memory_termination :
    (∀ s : MultiAgentState, 2 ≤ countToolMsgs s.memory_messages →
      memory_should_continue s = "end")
    ∧ (∀ s : MultiAgentState, memory_should_continue s = MEMORY_TOOL_NODE →
      countToolMsgs s.memory_messages < 2) := by
  have hend : ∀ s : MultiAgentState, 2 ≤ countToolMsgs s.memory_messages →
      memory_should_continue s = "end" := by
    intro s h
    unfold memory_should_continue
    repeat' split
    all_goals rfl
  refine ⟨hend, ?_⟩
  intro s h
  by_contra hc
  push_neg at hc
  rw [hend s hc] at h
  exact absurd h (by decide)

/-- C4 (witness): with two tool outputs already in the memory sub-log and
a pending tool-call request, the router still ends the turn. -/
theorem C4_witness :
    memory_should_continue
      { baseState with
          messages := [.ai none "" [⟨"add_memory", [], some "3"⟩]],
          memory_messages := [.tool none "r1" (some "1"), .tool none "r2" (some "2")] } =
      "end" :=
  C4_memory_termination.1
    { baseState with
        messages := [.ai none "" [⟨"add_memory", [], some "3"⟩]],
        memory_messages := [.tool none "r1" (some "1"), .tool none "r2" (some "2")] }
    (by decide)

/-- C5 (counterexample): the claim is false as stated.  When a worker's
language model responds with a tool-call request, `call_agent_generic`
appends that raw response to `core_messages`, so the core log contains a
message with `tool_call_requests` set. -/
theorem C5_counterexample :
    (call_agent_generic
      { baseState with
          message_to_next_agent := some (.human (some "Supervisor") "send it") }
      WorkerKey.email
      (.ai none "" [⟨"send_email", [], some "a"⟩])).map
        (fun st => corePure st.core_messages) = some false := by
  decide

/-- C5 (amended): core-log purity is preserved by the controller, the
reviewer, the browser node and the State Summarizer (given a pure filtered
trace), but the generic worker node appends its raw response — which may
carry tool-call requests — to `core_messages`; purity is only restored
when the Summarizer rebuilds the core log. -/
theorem C5_amended :
    (∀ (s : MultiAgentState) (out : SupervisorOut) (st' : MultiAgentState),
      call_supervisor s (some out) = some st' →
      corePure s.core_messages = true → corePure st'.core_messages = true)
    ∧ (∀ (s : MultiAgentState) (ht : String) (r : ReviewOut),
      corePure s.core_messages = true →
      corePure (call_reviewer_agent s ht r).1.core_messages = true)
    ∧ (∀ (s : MultiAgentState) (txt : String) (st' : MultiAgentState),
      call_browser_agent s txt = some st' →
      corePure s.core_messages = true → corePure st'.core_messages = true)
    ∧ (∀ (s : MultiAgentState) (ts : String),
      corePure (s.messages.filter keepCore) = true →
      corePure (clear_sub_agents_state s ts).core_messages = true)
    ∧ (∀ (s : MultiAgentState) (k : WorkerKey) (resp : Msg) (st' : MultiAgentState),
      call_agent_generic s k resp = some st' →
      st'.core_messages = s.core_messages ++ [resp]) := by
  refine ⟨?_, ?_, ?_, ?_, ?_⟩
  · intro s out st' h hpure
    unfold call_supervisor at h
    simp only [Option.some.injEq] at h
    rw [← h]
    simp [corePure, Msg.toolCalls, Msg.isTool]
    simpa [corePure] using hpure
  · intro s ht r hpure
    unfold call_reviewer_agent
    split
    · simpa [corePure] using hpure
    · split
      · simpa [corePure] using hpure
      · split
        · simpa [corePure] using hpure
        · by_cases hap : r.decision = "approved"
          · have hcr : ¬r.decision = "change_requested" := by rw [hap]; decide
            simp only [if_pos hap, if_neg hcr]
            simp [corePure, Msg.toolCalls, Msg.isTool]
            simpa [corePure] using hpure
          · by_cases hcr : r.decision = "change_requested"
            · simp only [if_neg hap, if_pos hcr]
              simp [corePure, Msg.toolCalls, Msg.isTool]
              simpa [corePure] using hpure
            · simp only [if_neg hap, if_neg hcr]
              simp [corePure, Msg.toolCalls, Msg.isTool]
              simpa [corePure] using hpure
  · intro s txt st' h hpure
    unfold call_browser_agent at h
    split at h
    · exact absurd h (by simp)
    · simp only [Option.some.injEq] at h
      rw [← h]
      simp [corePure, Msg.toolCalls, Msg.isTool]
      simpa [corePure] using hpure
  · intro s ts hpure
    unfold clear_sub_agents_state
    by_cases hparts : (summaryParts s).isEmpty = true
    · simp only [hparts]
      simpa [corePure] using hpure
    · simp only [hparts]
      simp [corePure, summaryMsg, Msg.toolCalls, Msg.isTool]
      simpa [corePure] using hpure
  · intro s k resp st' h
    unfold call_agent_generic at h
    split at h
    · exact absurd h (by simp)
    · simp only [Option.some.injEq] at h
      rw [← h]

/-- C5 (witness): purity preservation at a concrete reviewer pass. -/
theorem C5_witness :
    corePure (call_reviewer_agent baseState "ok" ⟨"approved", ""⟩).1.core_messages = true :=
  C5_amended.2.1 baseState "ok" ⟨"approved", ""⟩ rfl

/-- C6 (counterexample): the claim is false as stated.  On a
`change_requested` review of a concrete pending `send_email` call, the
Reviewer node does not build a new `handoff_message`: it sets
`message_to_next_agent` to `None`. -/
theorem C6_counterexample :
    (call_reviewer_agent
      { baseState with
          messages := [.ai none ""
            [⟨"send_email", [("to", "a@b.c"), ("subject", "Hi"), ("body", "Hello")],
              some "call1"⟩]] }
      "change the time" ⟨"change_requested", "use 3pm"⟩).1.message_to_next_agent = none
    ∧ (call_reviewer_agent
      { baseState with
          messages := [.ai none ""
            [⟨"send_email", [("to", "a@b.c"), ("subject", "Hi"), ("body", "Hello")],
              some "call1"⟩]] }
      "change the time" ⟨"change_requested", "use 3pm"⟩).1.review_decision =
      some "change_requested" := by
  refine ⟨by decide, by decide⟩

/-- C6 (amended): on a `change_requested` classification for a sensitive
pending call, the Reviewer synthesizes a tool-result message with the
pending call's correlation id whose content encodes the rejection, the
feedback and the rewrite instruction (appended to the email sub-log and
the global log), clears `message_to_next_agent` (no new handoff message
is built — the revision instruction travels in the synthesized tool
result), sets `bulk_approval_active` to `false`, and the reviewer router
then re-enters the email worker. -/
theorem C6_amended (s : MultiAgentState) (ht fb : String) (p : ToolCall)
    (hb : s.bulk_approval_active ≠ some true)
    (hp : reviewerPending s = some p)
    (hsens : pyLower p.name ∈ SENSITIVE_EMAIL_TOOLS) :
    (call_reviewer_agent s ht ⟨"change_requested", fb⟩).2 = true
    ∧ (call_reviewer_agent s ht ⟨"change_requested", fb⟩).1.review_decision =
        some "change_requested"
    ∧ (call_reviewer_agent s ht ⟨"change_requested", fb⟩).1.review_feedback = some fb
    ∧ (call_reviewer_agent s ht ⟨"change_requested", fb⟩).1.email_messages =
        s.email_messages ++
          [Msg.tool (some (pyLower p.name))
            ("User rejected draft. Feedback: " ++ fb ++ ". Please Rewrite.") p.id]
    ∧ (call_reviewer_agent s ht ⟨"change_requested", fb⟩).1.messages =
        s.messages ++
          [Msg.tool (some (pyLower p.name))
            ("User rejected draft. Feedback: " ++ fb ++ ". Please Rewrite.") p.id]
    ∧ (call_reviewer_agent s ht ⟨"change_requested", fb⟩).1.message_to_next_agent = none
    ∧ (call_reviewer_agent s ht ⟨"change_requested", fb⟩).1.bulk_approval_active =
        some false
    ∧ reviewer_should_continue (call_reviewer_agent s ht ⟨"change_requested", fb⟩).1 =
        EMAIL_AGENT_NODE := by
  have hres : call_reviewer_agent s ht ⟨"change_requested", fb⟩ =
      ({ s with
          review_decision := some "change_requested",
          review_feedback := some fb,
          core_messages := s.core_messages ++
            [.ai (some "reviewer_agent") ("[REVIEW] " ++ "change_requested" ++ "\n" ++ fb) []],
          email_messages := s.email_messages ++
            [Msg.tool (some (pyLower p.name))
              ("User rejected draft. Feedback: " ++ fb ++ ". Please Rewrite.") p.id],
          messages := s.messages ++
            [Msg.tool (some (pyLower p.name))
              ("User rejected draft. Feedback: " ++ fb ++ ". Please Rewrite.") p.id],
          message_to_next_agent := none,
          bulk_approval_active := some false }, true) := by
    simp only [call_reviewer_agent, if_neg hb, hp]
    rw [if_neg (not_not_intro hsens)]
    simp only [if_neg (show ¬("change_requested" = "approved") from by decide),
      if_pos (show "change_requested" = "change_requested" from rfl), if_true]
  rw [hres]
  refine ⟨rfl, rfl, rfl, rfl, rfl, rfl, rfl, ?_⟩
  simp [reviewer_should_continue, pyLower]

/-- C6 (witness): the amended behavior at a concrete pending call. -/
theorem C6_witness :
    (call_reviewer_agent
      { baseState with
          messages := [.ai none "" [⟨"send_email", [("to", "a@b.c")], some "call1"⟩]] }
      "no" ⟨"change_requested", "shorter"⟩).1.bulk_approval_active = some false :=
  (C6_amended
    { baseState with
        messages := [.ai none "" [⟨"send_email", [("to", "a@b.c")], some "call1"⟩]] }
    "no" "shorter" ⟨"send_email", [("to", "a@b.c")], some "call1"⟩
    (by decide) (by decide) (by decide)).2.2.2.2.2.2.1

/-- C7 (counterexample): the claim is false as stated.  There is no
degraded-mode fallback in the controller: when the structured output of
the model cannot be parsed (`none` outcome), `call_supervisor` produces
no successor state at all — the failure propagates as an engine fault
instead of a `route = "none"` turn. -/
theorem C7_counterexample : call_supervisor baseState none = none := rfl

/-- C7 (amended): the controller has no degraded-mode fallback: a parse
failure of the structured output propagates out of the supervisor node
for every state; only a successfully parsed decision produces a successor
state, whose `route` and user-facing response are taken verbatim from the
structured output. -/
theorem C7_amended :
    (∀ s : MultiAgentState, call_supervisor s none = none)
    ∧ (∀ (s : MultiAgentState) (out : SupervisorOut) (st' : MultiAgentState),
      call_supervisor s (some out) = some st' →
      st'.route = pyLower (Route.toStr out.route)
      ∧ st'.supervisor_response = out.response) := by
  refine ⟨fun s => rfl, ?_⟩
  intro s out st' h
  unfold call_supervisor at h
  simp only [Option.some.injEq] at h
  rw [← h]
  exact ⟨rfl, rfl⟩

/-- C7 (witness): a concrete parsed decision is applied verbatim. -/
theorem C7_witness :
    ((call_supervisor baseState
      (some ⟨"t", Route.email_agent, "m", "r"⟩)).getD baseState).route =
      "email_agent" := by
  have h := C7_amended.2 baseState ⟨"t", Route.email_agent, "m", "r"⟩ _ rfl
  exact h.1.trans (by decide)

/-- C8 (counterexample): the claim is false as stated.  The State
Summarizer leaves the memory, browser and research sub-logs untouched
(only email, calendar and sheet are reset) and does not clear
`memory_agent_response`. -/
theorem C8_counterexample :
    (clear_sub_agents_state
      { baseState with
          memory_messages := [.tool none "saved" (some "m1")],
          browser_messages := [.human none "go"],
          research_messages := [.ai none "found" []],
          memory_agent_response := some "noted" }
      "12:00:00").memory_messages = [.tool none "saved" (some "m1")]
    ∧ (clear_sub_agents_state
      { baseState with
          memory_messages := [.tool none "saved" (some "m1")],
          browser_messages := [.human none "go"],
          research_messages := [.ai none "found" []],
          memory_agent_response := some "noted" }
      "12:00:00").browser_messages ≠ []
    ∧ (clear_sub_agents_state
      { baseState with
          memory_messages := [.tool none "saved" (some "m1")],
          browser_messages := [.human none "go"],
          research_messages := [.ai none "found" []],
          memory_agent_response := some "noted" }
      "12:00:00").research_messages ≠ []
    ∧ (clear_sub_agents_state
      { baseState with
          memory_messages := [.tool none "saved" (some "m1")],
          browser_messages := [.human none "go"],
          research_messages := [.ai none "found" []],
          memory_agent_response := some "noted" }
      "12:00:00").memory_agent_response = some "noted" := by
  refine ⟨by decide, by decide, by decide, by decide⟩

/-- C8 (amended): the State Summarizer resets the email, calendar and
sheet sub-logs to empty, clears the email/calendar/sheet/browser/research
worker responses, the pending sensitive call, the review decision and
feedback, the handoff and the bulk-approval flag; the memory, browser and
research sub-logs and the memory response are left unchanged; and when a
summary is composed it is appended to the core log and the global log
only, never to any sub-log. -/
theorem C8_amended (s : MultiAgentState) (ts : String) :
    ((clear_sub_agents_state s ts).email_messages = []
      ∧ (clear_sub_agents_state s ts).calendar_messages = []
      ∧ (clear_sub_agents_state s ts).sheet_messages = []
      ∧ (clear_sub_agents_state s ts).memory_messages = s.memory_messages
      ∧ (clear_sub_agents_state s ts).browser_messages = s.browser_messages
      ∧ (clear_sub_agents_state s ts).research_messages = s.research_messages
      ∧ (clear_sub_agents_state s ts).email_agent_response = none
      ∧ (clear_sub_agents_state s ts).calendar_agent_response = none
      ∧ (clear_sub_agents_state s ts).sheet_agent_response = none
      ∧ (clear_sub_agents_state s ts).browser_agent_response = none
      ∧ (clear_sub_agents_state s ts).research_agent_response = none
      ∧ (clear_sub_agents_state s ts).memory_agent_response = s.memory_agent_response
      ∧ (clear_sub_agents_state s ts).pending_email_tool_call = none
      ∧ (clear_sub_agents_state s ts).review_decision = none
      ∧ (clear_sub_agents_state s ts).review_feedback = none
      ∧ (clear_sub_agents_state s ts).message_to_next_agent = none
      ∧ (clear_sub_agents_state s ts).bulk_approval_active = some false)
    ∧ (¬(summaryParts s).isEmpty = true →
      (clear_sub_agents_state s ts).messages = s.messages ++ [summaryMsg s ts]
      ∧ (clear_sub_agents_state s ts).core_messages =
          s.messages.filter keepCore ++ [summaryMsg s ts]) := by
  constructor
  · exact ⟨rfl, rfl, rfl, rfl, rfl, rfl, rfl, rfl, rfl, rfl, rfl, rfl, rfl, rfl,
      rfl, rfl, rfl⟩
  · intro hparts
    unfold clear_sub_agents_state
    simp [hparts]

/-- C8 (witness): the summary location at a concrete state with a
completed email task. -/
theorem C8_witness :
    (clear_sub_agents_state { baseState with email_agent_response := some "sent" }
      "10:00:00").messages =
      ({ baseState with email_agent_response := some "sent" } :
        MultiAgentState).messages ++
        [summaryMsg { baseState with email_agent_response := some "sent" } "10:00:00"] :=
  ((C8_amended { baseState with email_agent_response := some "sent" } "10:00:00").2
    (by decide)).1

/-- C9: the Memory Retrieval node is the graph's entry point and no edge
of the compiled graph targets it, so it runs exactly once per turn; it
queries the memory store with the last message's content, `limit = 1` and
the verbose flag, storing the result on the state; and a failed or empty
lookup yields an explicit string value rather than an engine error. -/
theorem C9_memory_retrieval :
    entryPoint = RETRIEVE_MEMORY_NODE
    ∧ (∀ e ∈ graphEdges, e.2 ≠ RETRIEVE_MEMORY_NODE)
    ∧ (∀ (s : MultiAgentState) (lookup : String → Nat → Bool → MemSearchOutcome)
        (last : Msg), s.messages.getLast? = some last →
      retrieve_memory s lookup =
        some { s with
          retrieved_memory := search_memory (lookup last.content 1 true) true,
          current_user_message := last.content })
    ∧ (∀ (e tb : String) (more : Bool),
      search_memory (.raised e tb) more = "Error searching memories: " ++ e ++ "\n" ++ tb)
    ∧ (∀ more : Bool, search_memory (.results []) more = "No relevant memories found.") := by
  refine ⟨rfl, by decide, ?_, fun e tb more => rfl, fun more => rfl⟩
  intro s lookup last h
  unfold retrieve_memory
  rw [h]

/-- C9 (witness): a concrete retrieval with an empty search result. -/
theorem C9_witness :
    ((retrieve_memory { baseState with messages := [Msg.human none "hi"] }
      (fun _ _ _ => MemSearchOutcome.results [])).getD baseState).retrieved_memory =
      "No relevant memories found." := by
  have h := C9_memory_retrieval.2.2.1
    { baseState with messages := [Msg.human none "hi"] }
    (fun _ _ _ => MemSearchOutcome.results []) (Msg.human none "hi") rfl
  rw [h]
  rfl

/-- C10: for every structured supervisor decision (whose `route` is one
of the five schema literals), the supervisor router never returns the
browser or deep-research node — those workers are unreachable from the
controller — and `memory_agent` and `none` are mapped to `"end"`, which
the graph wires to the Memory Agent node. -/
theorem C10_supervisor_routing (s : MultiAgentState) (r : Route)
    (h : s.route = pyLower (Route.toStr r)) :
    (supervisor_should_continue s ≠ BROWSER_AGENT_NODE
      ∧ supervisor_should_continue s ≠ DEEP_RESEARCH_AGENT_NODE)
    ∧ ((r = Route.memory_agent ∨ r = Route.none_) →
        supervisor_should_continue s = "end")
    ∧ supervisorConditionalEdges.lookup "end" = some MEMORY_AGENT_NODE := by
  cases r <;>
    simp_all [supervisor_should_continue, Route.toStr, pyLower,
      EMAIL_AGENT_NODE, CALENDAR_AGENT_NODE, SHEET_AGENT_NODE, BROWSER_AGENT_NODE,
      DEEP_RESEARCH_AGENT_NODE, MEMORY_AGENT_NODE, supervisorConditionalEdges] <;>
    decide

/-- C10 (witness): a `memory_agent` decision ends the worker phase. -/
theorem C10_witness :
    supervisor_should_continue { baseState with route := "memory_agent" } = "end" :=
  (C10_supervisor_routing { baseState with route := "memory_agent" }
    Route.memory_agent (by decide)).2.1 (Or.inl rfl)

end AIAgent
